import Mathlib

/-!
Verification of the flag resolution engine in
`src/examples/agent-http-server.py` (AppConfig Agent HTTP API server).

The engine is shallowly embedded: JSON values become the inductive `JVal`,
Python exceptions become the `PyErr` error type of an `Except` monad, and
each Python function of the core (`evaluate_condition`, `evaluate_flag`,
`handle_evaluate`, `get_config_path`) becomes a Lean definition of the same
name, translated line by line.  Python truthiness (`if not x:`), the string
membership operator (`pat in s`), `str.split`, `dict.get` with and without a
default, and the exceptions raised by attribute access on non-dicts, by
indexing a too-short list, and by iterating a non-iterable are all modelled
explicitly, because the control flow of the source depends on them.

The filesystem is abstracted as a `store` function from config paths to
either nothing (the path does not exist, `os.path.exists` is false) or the
outcome of `json.load` on the file (a parsed `JVal`, or a parse error).
-/

set_option autoImplicit false

namespace AppConfigAgent

/-- JSON-representable values, the payload type of configuration documents,
evaluation contexts, flag defaults and rule values.  Numbers are modelled as
integers; no claim depends on non-integral numerics. -/
inductive JVal where
  | null
  | bool (b : Bool)
  | num (n : Int)
  | str (s : String)
  | arr (elems : List JVal)
  | obj (fields : List (String × JVal))

/-- The Python exceptions the core can raise.  `jsonDecodeError` comes from
`json.load` on a malformed document, `attributeError` from calling `.get` or
`.split` on a value that lacks the method, `indexError` from `split(...)[1]`
on a too-short list, `typeError` from iterating or testing membership on a
non-iterable. -/
inductive PyErr where
  | jsonDecodeError
  | attributeError
  | indexError
  | typeError
deriving DecidableEq

/-- Reason codes of an evaluation result, exactly the four strings the
source returns. -/
inductive Reason where
  | FLAG_NOT_FOUND
  | TARGETING_MATCH
  | DEFAULT
  | ERROR
deriving DecidableEq

/-- The result dictionary built by `evaluate_flag`. -/
structure EvalResult where
  value : JVal
  reason : Reason

/-- First-match lookup in the field list of a parsed JSON object, the
model of Python `dict[key]` presence and of `dict.get(key)`.  Parsed
objects are taken with distinct keys, as `json.load` produces. -/
def getKey : List (String × JVal) → String → Option JVal
  | [], _ => none
  | (k, v) :: rest, key => if k == key then some v else getKey rest key

/-- Python truthiness on JSON values: `None`, `False`, `0`, the empty
string, the empty list and the empty dict are falsy, everything else is
truthy. -/
def truthy : JVal → Bool
  | .null => false
  | .bool b => b
  | .num n => n != 0
  | .str s => !s.isEmpty
  | .arr elems => !elems.isEmpty
  | .obj fields => !fields.isEmpty

/-- Truthiness lifted to an optional value; an absent value (Python `None`
from `dict.get`) is falsy. -/
def pyTruthyOpt : Option JVal → Bool
  | none => false
  | some v => truthy v

/-- Does `pat` occur as a contiguous substring somewhere in the character
list? -/
def containsAux (pat : List Char) : List Char → Bool
  | [] => pat.isEmpty
  | c :: cs => pat.isPrefixOf (c :: cs) || containsAux pat cs

/-- The Python string membership test `pat in s`. -/
def pyInStr (pat s : String) : Bool :=
  containsAux pat.data s.data

/-- The Python comparison `user_role == expected_role` where
`expected_role` is always a string: only an equal string compares equal;
`None`, numbers, booleans, lists and dicts compare unequal to a string. -/
def pyEqStr (v : Option JVal) (s : String) : Bool :=
  match v with
  | some (.str t) => t == s
  | _ => false

/-- The source expression `context.get('user', \x7b\x7d).get('role')`
(lines 139): raises `AttributeError` when `context`, or a present `user`
entry, is not a dict; otherwise yields the value at `role`, or nothing. -/
def contextUserRole (context : JVal) : Except PyErr (Option JVal) :=
  match context with
  | .obj fields =>
    match (getKey fields "user").getD (.obj []) with
    | .obj userFields => .ok (getKey userFields "role")
    | _ => .error .attributeError
  | _ => .error .attributeError

/-- Splitting a character list on a separator character, accumulating the
current piece in reverse: the model of Python `str.split(sep)` for a
one-character separator. -/
def splitOnCharAux (sep : Char) : List Char → List Char → List (List Char)
  | [], acc => [acc.reverse]
  | c :: cs, acc =>
    if c == sep then
      acc.reverse :: splitOnCharAux sep cs []
    else
      splitOnCharAux sep cs (c :: acc)

/-- Python `s.split(sep)` for a one-character separator. -/
def pySplitChar (s : String) (sep : Char) : List String :=
  (splitOnCharAux sep s.data []).map String.mk

/-- The double-quote character. -/
def dquote : Char := Char.ofNat 34

/-- The single-quote character. -/
def squote : Char := Char.ofNat 39

/-- The literal extraction of line 138: split on the double quote and take
index 1 when a double quote occurs, else split on the single quote and take
index 1 (raising `IndexError` when there is no single quote either). -/
def extractLiteral (cond : String) : Except PyErr String :=
  if pyInStr "\x22" cond then
    match (pySplitChar cond dquote).get? 1 with
    | some s => .ok s
    | none => .error .indexError
  else
    match (pySplitChar cond squote).get? 1 with
    | some s => .ok s
    | none => .error .indexError

/-- `evaluate_condition(condition, context)`, lines 131 to 143.  A falsy
condition (absent, `None`, or the empty string among others) always
matches.  A truthy string containing the substring `user.role ==` is
handled by literal extraction and comparison against
`context.get('user', \x7b\x7d).get('role')`; any other truthy string
returns false.  A truthy list or dict supports the `in` membership test
(elements, respectively keys) and then fails with `AttributeError` at
`.split`; a truthy number or boolean fails the `in` test itself with
`TypeError`. -/
def evaluate_condition (condition : Option JVal) (context : JVal) :
    Except PyErr Bool :=
  if pyTruthyOpt condition = false then
    .ok true
  else
    match condition with
    | some (.str cond) =>
      if pyInStr "user.role ==" cond then
        match extractLiteral cond with
        | .error e => .error e
        | .ok expected_role =>
          match contextUserRole context with
          | .error e => .error e
          | .ok user_role => .ok (pyEqStr user_role expected_role)
      else
        .ok false
    | some (.arr elems) =>
      if elems.any (fun v => match v with
          | .str s => s == "user.role =="
          | _ => false) then
        .error .attributeError
      else
        .ok false
    | some (.obj fields) =>
      if fields.any (fun kv => kv.1 == "user.role ==") then
        .error .attributeError
      else
        .ok false
    | _ => .error .typeError

/-- Iterating a JSON value with `for rule in rules`: lists yield their
elements, dicts their keys, strings their one-character substrings;
numbers, booleans and `None` raise `TypeError`. -/
def pyIter : JVal → Except PyErr (List JVal)
  | .arr elems => .ok elems
  | .obj fields => .ok (fields.map (fun kv => .str kv.1))
  | .str s => .ok (s.data.map (fun c => .str (String.mk [c])))
  | _ => .error .typeError

/-- The rule loop of lines 108 to 116: for each rule (which must be a dict,
else `rule.get` raises `AttributeError`), read its optional `condition` and
`value` entries and call `evaluate_condition`; the first rule whose
condition matches yields its value (an absent `value` yields `None`, hence
`null`), a non-match moves on, and the loop falling through yields
nothing. -/
def evalRules (rules : List JVal) (context : JVal) :
    Except PyErr (Option JVal) :=
  match rules with
  | [] => .ok none
  | rule :: rest =>
    match rule with
    | .obj ruleFields =>
      match evaluate_condition (getKey ruleFields "condition") context with
      | .error e => .error e
      | .ok true => .ok (some ((getKey ruleFields "value").getD .null))
      | .ok false => evalRules rest context
    | _ => .error .attributeError

/-- The body of `evaluate_flag` inside its `try` block, lines 91 to 122.
`parsed` is the outcome of `open` plus `json.load` on the config file.
`config_data.get('features', \x7b\x7d)` requires `config_data` to be a
dict; `features.get(flag_key)` requires the features value to be a dict; a
falsy flag config (absent, but also the empty dict among others) yields
FLAG_NOT_FOUND; otherwise the flag config must be a dict for
`flag_config.get('default', default_value)` and `.get('rules', [])`, the
rules value is iterated, and the loop outcome selects TARGETING_MATCH or
DEFAULT. -/
def evaluate_flag_body (parsed : Except PyErr JVal) (flag_key : String)
    (context : JVal) (default_value : JVal) : Except PyErr EvalResult :=
  match parsed with
  | .error e => .error e
  | .ok config_data =>
    match config_data with
    | .obj cfg =>
      match (getKey cfg "features").getD (.obj []) with
      | .obj featureFields =>
        let flag_config := getKey featureFields flag_key
        if pyTruthyOpt flag_config = false then
          .ok ⟨default_value, .FLAG_NOT_FOUND⟩
        else
          match flag_config.getD .null with
          | .obj flagFields =>
            let flag_default := (getKey flagFields "default").getD default_value
            match pyIter ((getKey flagFields "rules").getD (.arr [])) with
            | .error e => .error e
            | .ok rules =>
              match evalRules rules context with
              | .error e => .error e
              | .ok (some v) => .ok ⟨v, .TARGETING_MATCH⟩
              | .ok none => .ok ⟨flag_default, .DEFAULT⟩
          | _ => .error .attributeError
      | _ => .error .attributeError
    | _ => .error .attributeError

/-- `evaluate_flag(config_path, flag_key, context, default_value)`, lines
88 to 129: the whole body runs inside `try`, and any exception is caught
and converted to a result carrying the caller-supplied default and reason
ERROR. -/
def evaluate_flag (parsed : Except PyErr JVal) (flag_key : String)
    (context : JVal) (default_value : JVal) : EvalResult :=
  match evaluate_flag_body parsed flag_key context default_value with
  | .ok r => r
  | .error _ => ⟨default_value, .ERROR⟩

/-- `get_config_path`, lines 83 to 86: join the agent base path with
`configs`, the three identifiers, and `config.json`. -/
def get_config_path (agent_path application environment profile : String) :
    String :=
  agent_path ++ "/configs/" ++ application ++ "/" ++ environment ++ "/" ++
    profile ++ "/config.json"

/-- The externally visible outcome of one `/evaluate` request: a 400 for
missing parameters, a 404 when the config path does not exist, or a 200
carrying an evaluation result. -/
inductive Outcome where
  | missingParams
  | notFound (path : String)
  | evalOk (r : EvalResult)

/-- `handle_evaluate`, lines 41 to 81, after the request body has been
parsed: the four required parameters are validated by Python truthiness
(`not all([...])`, so absent or empty strings are rejected), the config
path is resolved, a missing file yields the 404 outcome, and otherwise
`evaluate_flag` runs on the load-and-parse outcome the store gives for the
path.  `store` abstracts `os.path.exists` plus `open`/`json.load`:
`none` means the path does not exist, `some parsed` the parse outcome. -/
def handle_evaluate (store : String → Option (Except PyErr JVal))
    (flag_key application environment configuration_profile : Option String)
    (context : JVal) (default_value : JVal) (agent_path : String) : Outcome :=
  match flag_key, application, environment, configuration_profile with
  | some f, some a, some e, some p =>
    if f.isEmpty || a.isEmpty || e.isEmpty || p.isEmpty then
      .missingParams
    else
      let path := get_config_path agent_path a e p
      match store path with
      | none => .notFound path
      | some parsed => .evalOk (evaluate_flag parsed f context default_value)
  | _, _, _, _ => .missingParams

/-! ## Specification-side helper definitions -/

/-- A context is shaped as the spec data model assumes: a mapping whose
`user` entry, when present, is itself a mapping. -/
def userEntryIsMapping : JVal → Bool
  | .obj fields =>
    match getKey fields "user" with
    | none => true
    | some (.obj _) => true
    | some _ => false
  | _ => false

/-- The value reached by looking up `user` then `role` in a context, as a
pure partial lookup (no error case). -/
def lookupUserRole : JVal → Option JVal
  | .obj fields =>
    match getKey fields "user" with
    | some (.obj userFields) => getKey userFields "role"
    | _ => none
  | _ => none

/-! ## Helper lemmas -/

/-- On a well-shaped context the source lookup raises nothing and computes
the pure lookup. -/
theorem contextUserRole_of_mapping (c : JVal) (h : userEntryIsMapping c = true) :
    contextUserRole c = .ok (lookupUserRole c) := by
  cases c with
  | obj fields =>
    cases hu : getKey fields "user" with
    | none => simp [contextUserRole, lookupUserRole, hu, getKey]
    | some v =>
      cases v <;>
        simp [userEntryIsMapping, hu, contextUserRole, lookupUserRole] at h ⊢
  | null => simp [userEntryIsMapping] at h
  | bool b => simp [userEntryIsMapping] at h
  | num n => simp [userEntryIsMapping] at h
  | str s => simp [userEntryIsMapping] at h
  | arr elems => simp [userEntryIsMapping] at h

/-- The matcher reads the context only through
`context.get('user', ...).get('role')`. -/
theorem evaluate_condition_ctx_congr (cond : Option JVal) (c1 c2 : JVal)
    (h : contextUserRole c1 = contextUserRole c2) :
    evaluate_condition cond c1 = evaluate_condition cond c2 := by
  unfold evaluate_condition
  rw [h]

/-- Unfolding of the matcher on the recognized branch: a non-empty
condition string containing `user.role ==` whose literal extraction yields
`lit`, matched against a context whose lookup yields `ur`, returns the
string comparison of the two. -/
theorem evaluate_condition_eq_branch (cond : String) (context : JVal)
    (lit : String) (ur : Option JVal)
    (hne : cond.isEmpty = false)
    (hin : pyInStr "user.role ==" cond = true)
    (hlit : extractLiteral cond = .ok lit)
    (hctx : contextUserRole context = .ok ur) :
    evaluate_condition (some (.str cond)) context = .ok (pyEqStr ur lit) := by
  simp [evaluate_condition, pyTruthyOpt, truthy, hne, hin, hlit, hctx]

/-- The comparison of a looked-up value with a string literal is true
exactly when the value is that string. -/
theorem pyEqStr_iff (ur : Option JVal) (lit : String) :
    pyEqStr ur lit = true ↔ ur = some (.str lit) := by
  cases ur with
  | none => simp [pyEqStr]
  | some v => cases v <;> simp [pyEqStr]

/-- The rule loop returns the value of the rule at position `i` when every
rule before `i` is a rule object whose condition evaluates cleanly to a
non-match and the condition of the rule at `i` evaluates to a match. -/
theorem evalRules_first_match (context : JVal) (i : Nat) :
    ∀ (rules : List JVal) (ri : List (String × JVal)),
      rules.get? i = some (.obj ri) →
      (∀ j, j < i → ∃ rj, rules.get? j = some (.obj rj) ∧
          evaluate_condition (getKey rj "condition") context = .ok false) →
      evaluate_condition (getKey ri "condition") context = .ok true →
      evalRules rules context = .ok (some ((getKey ri "value").getD .null)) := by
  induction i with
  | zero =>
    intro rules ri hget hbefore hmatch
    cases rules with
    | nil => simp at hget
    | cons r rest =>
      simp at hget
      subst hget
      simp [evalRules, hmatch]
  | succ n ih =>
    intro rules ri hget hbefore hmatch
    cases rules with
    | nil => simp at hget
    | cons r rest =>
      obtain ⟨r0, h0, hc0⟩ := hbefore 0 (Nat.succ_pos n)
      simp at h0
      subst h0
      simp only [evalRules, hc0]
      exact ih rest ri (by simpa using hget)
        (fun j hj => by
          obtain ⟨rj, hrj, hcj⟩ := hbefore (j + 1) (Nat.succ_lt_succ hj)
          exact ⟨rj, by simpa using hrj, hcj⟩)
        hmatch

/-! ## Claim theorems -/

/-- C1: `evaluate_flag` never propagates an exception: whenever its body
(the `try` block) raises, the call returns exactly the caller-supplied
default with reason ERROR, and whenever the body completes, the call
returns the body result unchanged. -/
theorem evaluate_flag_never_propagates (parsed : Except PyErr JVal)
    (flag_key : String) (context default_value : JVal) :
    (∀ e, evaluate_flag_body parsed flag_key context default_value = .error e →
      evaluate_flag parsed flag_key context default_value
        = ⟨default_value, .ERROR⟩) ∧
    (∀ r, evaluate_flag_body parsed flag_key context default_value = .ok r →
      evaluate_flag parsed flag_key context default_value = r) := by
  constructor <;> intro x h <;> simp [evaluate_flag, h]

/-- C1 witness: a flag whose `rules` entry is the number 5 makes the body
raise `TypeError` at the loop, and the call returns the caller default,
not the flag default. -/
theorem evaluate_flag_never_propagates_witness :
    evaluate_flag
      (.ok (.obj [("features", .obj [("f", .obj
        [("default", .str "flag-default"), ("rules", .num 5)])])]))
      "f" (.obj []) (.str "caller-default")
      = ⟨.str "caller-default", .ERROR⟩ :=
  (evaluate_flag_never_propagates _ "f" _ _).1 .typeError rfl

/-- C2 counterexample: a request whose backing document exists but is
malformed (the store yields a JSON decode error for the resolved path)
produces an EvaluationResult with reason ERROR over HTTP 200, not a
distinct ParseError outcome, contradicting the claim. -/
theorem parse_error_collapses_counterexample :
    handle_evaluate
      (fun p =>
        if p = "/opt/appconfig-agent/configs/app/env/prof/config.json" then
          some (.error .jsonDecodeError)
        else none)
      (some "flag") (some "app") (some "env") (some "prof")
      (.obj []) (.str "caller-default") "/opt/appconfig-agent"
      = .evalOk ⟨.str "caller-default", .ERROR⟩ := rfl

/-- C2 amended: a triple with no backing document yields the distinct
NotFound outcome, but a present-and-malformed document is parsed inside
`evaluate_flag`, whose catch-all converts the parse failure into the
EvaluationResult with the caller default and reason ERROR; NotFound is
distinct from every evaluation result. -/
theorem resolver_outcomes (store : String → Option (Except PyErr JVal))
    (f a e p : String) (context default_value : JVal) (base : String)
    (hf : f.isEmpty = false) (ha : a.isEmpty = false)
    (he : e.isEmpty = false) (hp : p.isEmpty = false) :
    (store (get_config_path base a e p) = none →
      handle_evaluate store (some f) (some a) (some e) (some p)
        context default_value base
        = .notFound (get_config_path base a e p)) ∧
    (∀ err, store (get_config_path base a e p) = some (.error err) →
      handle_evaluate store (some f) (some a) (some e) (some p)
        context default_value base
        = .evalOk ⟨default_value, .ERROR⟩) ∧
    (∀ path r, Outcome.notFound path ≠ Outcome.evalOk r) := by
  refine ⟨fun h => ?_, fun err h => ?_, fun path r hc => ?_⟩
  · simp [handle_evaluate, hf, ha, he, hp, h]
  · simp [handle_evaluate, hf, ha, he, hp, h, evaluate_flag,
      evaluate_flag_body]
  · cases hc

/-- C2 amended witness: the two resolver outcomes at concrete stores. -/
theorem resolver_outcomes_witness :
    handle_evaluate (fun _ => none) (some "flag") (some "app") (some "env")
      (some "prof") (.obj []) .null "/opt/appconfig-agent"
      = .notFound "/opt/appconfig-agent/configs/app/env/prof/config.json" ∧
    handle_evaluate (fun _ => some (.error .jsonDecodeError)) (some "flag")
      (some "app") (some "env") (some "prof") (.obj []) .null
      "/opt/appconfig-agent"
      = .evalOk ⟨.null, .ERROR⟩ :=
  ⟨(resolver_outcomes (fun _ => none) "flag" "app" "env" "prof"
      (.obj []) .null "/opt/appconfig-agent" rfl rfl rfl rfl).1 rfl,
   (resolver_outcomes (fun _ => some (.error .jsonDecodeError)) "flag" "app"
      "env" "prof" (.obj []) .null "/opt/appconfig-agent" rfl rfl rfl rfl).2.1
     .jsonDecodeError rfl⟩

/-- C3 counterexample: a condition over the dotted path `tenant.plan`
does not match even when the context carries exactly the quoted value at
that path — only the fixed substring `user.role ==` is recognized. -/
theorem dotted_path_counterexample :
    evaluate_condition (some (.str "tenant.plan == \x22pro\x22"))
      (.obj [("tenant", .obj [("plan", .str "pro")])]) = .ok false := rfl

/-- C3 amended: a non-empty condition containing the fixed substring
`user.role ==` is resolved by extracting the first quoted literal and
comparing it, by exact string equality, against the value at
`context[user][role]` — and that comparison is true exactly when the
looked-up value is the literal string. -/
theorem equality_condition_matches (cond : String) (context : JVal)
    (lit : String) (ur : Option JVal)
    (hne : cond.isEmpty = false)
    (hin : pyInStr "user.role ==" cond = true)
    (hlit : extractLiteral cond = .ok lit)
    (hctx : contextUserRole context = .ok ur) :
    evaluate_condition (some (.str cond)) context = .ok (pyEqStr ur lit) ∧
    (pyEqStr ur lit = true ↔ ur = some (.str lit)) :=
  ⟨evaluate_condition_eq_branch cond context lit ur hne hin hlit hctx,
   pyEqStr_iff ur lit⟩

/-- C3 amended witness: the admin condition against the admin context. -/
theorem equality_condition_matches_witness :
    evaluate_condition (some (.str "user.role == \x22admin\x22"))
      (.obj [("user", .obj [("role", .str "admin")])]) = .ok true ∧
    evaluate_condition (some (.str "user.role == \x22admin\x22"))
      (.obj [("user", .obj [("role", .str "Admin")])]) = .ok false :=
  ⟨(equality_condition_matches "user.role == \x22admin\x22"
      (.obj [("user", .obj [("role", .str "admin")])])
      "admin" (some (.str "admin")) rfl rfl rfl rfl).1,
   (equality_condition_matches "user.role == \x22admin\x22"
      (.obj [("user", .obj [("role", .str "Admin")])])
      "admin" (some (.str "Admin")) rfl rfl rfl rfl).1⟩

/-- C4 counterexample: the empty condition string is Python-falsy and
matches (returns true), and the condition `user.role == admin` (no quoted
literal) raises IndexError rather than returning false, which diverts the
evaluation into the ERROR path — both contradicting the claim. -/
theorem unrecognized_condition_counterexample :
    evaluate_condition (some (.str "")) (.obj []) = .ok true ∧
    evaluate_condition (some (.str "user.role == admin")) (.obj [])
      = .error .indexError :=
  ⟨rfl, rfl⟩

/-- C4 amended: every non-empty condition string that does not contain the
substring `user.role ==` returns false without raising, for every
context. -/
theorem unrecognized_condition_no_match (cond : String) (context : JVal)
    (hne : cond.isEmpty = false)
    (hnin : pyInStr "user.role ==" cond = false) :
    evaluate_condition (some (.str cond)) context = .ok false := by
  simp [evaluate_condition, pyTruthyOpt, truthy, hne, hnin]

/-- C4 amended witness: an unrecognized predicate never matches. -/
theorem unrecognized_condition_no_match_witness :
    evaluate_condition (some (.str "group == \x22beta\x22")) (.obj [])
      = .ok false :=
  unrecognized_condition_no_match _ _ rfl rfl

/-- C5 counterexample: a flag whose definition is the empty object is
Python-falsy, so `if not flag_config` treats it as absent and evaluate
returns FLAG_NOT_FOUND, not DEFAULT as the claim states. -/
theorem empty_flag_definition_counterexample :
    evaluate_flag (.ok (.obj [("features", .obj [("beta", .obj [])])]))
      "beta" (.obj []) (.str "caller-default")
      = ⟨.str "caller-default", .FLAG_NOT_FOUND⟩ := rfl

/-- C5 amended: a flag definition that is a non-empty object lacking both
optional fields resolves to defaults — absent rules behave as the empty
rule sequence, absent default falls back to the caller default — and
evaluate returns the caller default with reason DEFAULT; the empty object
is the one exception, being falsy and treated as an absent flag. -/
theorem optional_fields_default (cfg featureFields flagFields :
      List (String × JVal)) (flag_key : String) (context default_value : JVal)
    (hfeat : getKey cfg "features" = some (.obj featureFields))
    (hflag : getKey featureFields flag_key = some (.obj flagFields))
    (hne : flagFields.isEmpty = false)
    (hrules : getKey flagFields "rules" = none)
    (hdflt : getKey flagFields "default" = none) :
    evaluate_flag (.ok (.obj cfg)) flag_key context default_value
      = ⟨default_value, .DEFAULT⟩ := by
  simp [evaluate_flag, evaluate_flag_body, hfeat, hflag, hrules, hdflt,
    pyTruthyOpt, truthy, hne, pyIter, evalRules]

/-- C5 amended witness: a flag defined only by a description field. -/
theorem optional_fields_default_witness :
    evaluate_flag
      (.ok (.obj [("features", .obj [("beta", .obj
        [("description", .str "x")])])]))
      "beta" (.obj []) (.str "caller-default")
      = ⟨.str "caller-default", .DEFAULT⟩ :=
  optional_fields_default
    [("features", .obj [("beta", .obj [("description", .str "x")])])]
    [("beta", .obj [("description", .str "x")])]
    [("description", .str "x")]
    "beta" (.obj []) (.str "caller-default") rfl rfl rfl rfl rfl

/-- C6: rule evaluation is first-match-wins in document order: when the
earliest rule whose condition matches sits at position i, every rule
before it evaluating cleanly to a non-match, evaluate returns the value
of that rule with reason TARGETING_MATCH, and nothing after position i
influences the result (the rules beyond i are universally quantified). -/
theorem first_match_wins (cfg featureFields flagFields :
      List (String × JVal)) (flag_key : String) (context default_value : JVal)
    (rules : List JVal) (i : Nat) (ri : List (String × JVal))
    (hfeat : getKey cfg "features" = some (.obj featureFields))
    (hflag : getKey featureFields flag_key = some (.obj flagFields))
    (hrules : getKey flagFields "rules" = some (.arr rules))
    (hget : rules.get? i = some (.obj ri))
    (hbefore : ∀ j, j < i → ∃ rj, rules.get? j = some (.obj rj) ∧
        evaluate_condition (getKey rj "condition") context = .ok false)
    (hmatch : evaluate_condition (getKey ri "condition") context = .ok true) :
    evaluate_flag (.ok (.obj cfg)) flag_key context default_value
      = ⟨(getKey ri "value").getD .null, .TARGETING_MATCH⟩ := by
  have hne : flagFields.isEmpty = false := by
    cases flagFields with
    | nil => simp [getKey] at hrules
    | cons kv rest => simp
  have h := evalRules_first_match context i rules ri hget hbefore hmatch
  simp [evaluate_flag, evaluate_flag_body, hfeat, hflag, hrules,
    pyTruthyOpt, truthy, hne, pyIter, h]

/-- C6 witness: with two unconditional rules carrying V1 and V2, the
result is V1, never V2. -/
theorem first_match_wins_witness :
    evaluate_flag
      (.ok (.obj [("features", .obj [("f", .obj [("rules", .arr
        [.obj [("value", .str "V1")], .obj [("value", .str "V2")]])])])]))
      "f" (.obj []) .null
      = ⟨.str "V1", .TARGETING_MATCH⟩ :=
  first_match_wins
    [("features", .obj [("f", .obj [("rules", .arr
      [.obj [("value", .str "V1")], .obj [("value", .str "V2")]])])])]
    [("f", .obj [("rules", .arr
      [.obj [("value", .str "V1")], .obj [("value", .str "V2")]])])]
    [("rules", .arr [.obj [("value", .str "V1")], .obj [("value", .str "V2")]])]
    "f" (.obj []) .null
    [.obj [("value", .str "V1")], .obj [("value", .str "V2")]]
    0 [("value", .str "V1")]
    rfl rfl rfl rfl (fun j hj => absurd hj (Nat.not_lt_zero j)) rfl

/-- C7: a flag key absent from the features mapping of the document yields
the caller default exactly as supplied with reason FLAG_NOT_FOUND, and an
absent rule condition matches every context, including the empty one. -/
theorem flag_not_found_and_absent_condition (cfg featureFields :
      List (String × JVal)) (flag_key : String) (context default_value : JVal)
    (hfeat : (getKey cfg "features").getD (.obj []) = .obj featureFields)
    (hflag : getKey featureFields flag_key = none) :
    evaluate_flag (.ok (.obj cfg)) flag_key context default_value
      = ⟨default_value, .FLAG_NOT_FOUND⟩ ∧
    (∀ ctx : JVal, evaluate_condition none ctx = .ok true) := by
  refine ⟨?_, fun ctx => rfl⟩
  simp [evaluate_flag, evaluate_flag_body, hfeat, hflag, pyTruthyOpt]

/-- C7 witness: a missing flag in a document without features, and the
absent condition against the empty context. -/
theorem flag_not_found_and_absent_condition_witness :
    evaluate_flag (.ok (.obj [])) "beta" (.obj []) (.str "supplied-default")
      = ⟨.str "supplied-default", .FLAG_NOT_FOUND⟩ ∧
    evaluate_condition none (.obj []) = .ok true :=
  ⟨(flag_not_found_and_absent_condition [] [] "beta" (.obj [])
      (.str "supplied-default") rfl rfl).1,
   (flag_not_found_and_absent_condition [] [] "beta" (.obj [])
      (.str "supplied-default") rfl rfl).2 (.obj [])⟩

/-- C8 counterexample: the context with `user` bound to the number 5 lacks
the path user.role, yet matching `user.role == \x22admin\x22` against it
raises AttributeError, and the evaluation of a flag carrying that rule
lands on the ERROR outcome, not DEFAULT, contradicting the claim. -/
theorem missing_path_counterexample :
    evaluate_condition (some (.str "user.role == \x22admin\x22"))
      (.obj [("user", .num 5)]) = .error .attributeError ∧
    evaluate_flag
      (.ok (.obj [("features", .obj [("f", .obj
        [("default", .str "flag-default"),
         ("rules", .arr [.obj [("condition", .str "user.role == \x22admin\x22"),
           ("value", .bool true)]])])])]))
      "f" (.obj [("user", .num 5)]) (.str "caller-default")
      = ⟨.str "caller-default", .ERROR⟩ :=
  ⟨rfl, rfl⟩

/-- C8 amended: against any context whose user-then-role lookup completes
and yields no value (the empty context, a mapping without user, or one
whose user mapping lacks role), the condition `user.role == \x22admin\x22`
evaluates to false rather than failing; a context whose user entry is a
non-mapping instead raises and diverts to ERROR. -/
theorem missing_path_no_match (context : JVal)
    (h : contextUserRole context = .ok none) :
    evaluate_condition (some (.str "user.role == \x22admin\x22")) context
      = .ok false :=
  evaluate_condition_eq_branch "user.role == \x22admin\x22" context
    "admin" none rfl rfl rfl h

/-- C8 amended witness: the empty context. -/
theorem missing_path_no_match_witness :
    evaluate_condition (some (.str "user.role == \x22admin\x22")) (.obj [])
      = .ok false :=
  missing_path_no_match (.obj []) rfl

/-- C9: condition matching reads the context only through the value at
`context[user][role]`: for every condition string and every two contexts
that are mappings whose user entry, when present, is a mapping, agreement
on the user-then-role lookup makes the matcher outcomes identical. -/
theorem condition_depends_only_on_user_role (s : String) (c1 c2 : JVal)
    (h1 : userEntryIsMapping c1 = true) (h2 : userEntryIsMapping c2 = true)
    (hagree : lookupUserRole c1 = lookupUserRole c2) :
    evaluate_condition (some (.str s)) c1
      = evaluate_condition (some (.str s)) c2 :=
  evaluate_condition_ctx_congr (some (.str s)) c1 c2
    (by rw [contextUserRole_of_mapping c1 h1,
        contextUserRole_of_mapping c2 h2, hagree])

/-- C9 witness: the empty context and a context differing in an unrelated
key agree on every condition. -/
theorem condition_depends_only_on_user_role_witness :
    evaluate_condition (some (.str "user.role == \x22admin\x22")) (.obj [])
      = evaluate_condition (some (.str "user.role == \x22admin\x22"))
          (.obj [("tenant", .str "x")]) :=
  condition_depends_only_on_user_role "user.role == \x22admin\x22"
    (.obj []) (.obj [("tenant", .str "x")]) rfl rfl rfl

/-- C10: when the earliest matching rule (reached with every prior rule
cleanly non-matching) has no value entry, evaluate returns null with
reason TARGETING_MATCH — neither the flag default nor the caller default
replaces the missing rule value, and no error is raised. -/
theorem matched_rule_without_value_yields_null (cfg featureFields flagFields :
      List (String × JVal)) (flag_key : String) (context default_value : JVal)
    (rules : List JVal) (i : Nat) (ri : List (String × JVal))
    (hfeat : getKey cfg "features" = some (.obj featureFields))
    (hflag : getKey featureFields flag_key = some (.obj flagFields))
    (hrules : getKey flagFields "rules" = some (.arr rules))
    (hget : rules.get? i = some (.obj ri))
    (hbefore : ∀ j, j < i → ∃ rj, rules.get? j = some (.obj rj) ∧
        evaluate_condition (getKey rj "condition") context = .ok false)
    (hmatch : evaluate_condition (getKey ri "condition") context = .ok true)
    (hnoval : getKey ri "value" = none) :
    evaluate_flag (.ok (.obj cfg)) flag_key context default_value
      = ⟨.null, .TARGETING_MATCH⟩ := by
  have hne : flagFields.isEmpty = false := by
    cases flagFields with
    | nil => simp [getKey] at hrules
    | cons kv rest => simp
  have h := evalRules_first_match context i rules ri hget hbefore hmatch
  rw [hnoval] at h
  simp [evaluate_flag, evaluate_flag_body, hfeat, hflag, hrules,
    pyTruthyOpt, truthy, hne, pyIter, h]

/-- C10 witness: a flag with a flag-level default whose single matching
rule has no value entry yields null, not that default. -/
theorem matched_rule_without_value_yields_null_witness :
    evaluate_flag
      (.ok (.obj [("features", .obj [("f", .obj
        [("default", .str "flag-default"), ("rules", .arr [.obj []])])])]))
      "f" (.obj []) (.str "caller-default")
      = ⟨.null, .TARGETING_MATCH⟩ :=
  matched_rule_without_value_yields_null
    [("features", .obj [("f", .obj
      [("default", .str "flag-default"), ("rules", .arr [.obj []])])])]
    [("f", .obj [("default", .str "flag-default"),
      ("rules", .arr [.obj []])])]
    [("default", .str "flag-default"), ("rules", .arr [.obj []])]
    "f" (.obj []) (.str "caller-default")
    [.obj []] 0 []
    rfl rfl rfl rfl (fun j hj => absurd hj (Nat.not_lt_zero j)) rfl rfl

end AppConfigAgent
